import Mathlib

/-!
Verification of the OpenRouter model-registry sync pipeline
(`scripts/setup`): a shallow embedding of the candidate data model
(`models/openrouter.py`, `models/zdr.py`), the relational rows
(`models/database.py`), the bulk-insert path
(`inserters/bulk_insert.py`), the field-group update functions
(`updaters/*.py`), the freshness gate and sync-metadata recording
(`__init__.py`), and the id parsing (`fetchers/openrouter.py`).

Sessions are modelled explicitly: a `Session` carries the committed
tables and the flushed-but-uncommitted (pending) tables;
`Session.rollback` discards the whole pending set (SQLAlchemy's
`session.rollback()` rolls back the open transaction — there are no
savepoints in this code), `Session.commit` merges pending into
committed.  Timestamps are integer epoch seconds; Python string
truthiness is `s ≠ ""`.
-/

namespace ModelRegistry

/-! ### Candidate (pydantic) models — `scripts/setup/models/openrouter.py` -/

/-- `Pricing` (model-level pricing block, decimal strings). -/
structure Pricing where
  prompt : String
  completion : String
  request : String := "0"
  image : String := "0"
  web_search : String := "0"
  internal_reasoning : String := "0"
deriving DecidableEq, Repr

/-- `Architecture`. -/
structure Architecture where
  modality : String
  input_modalities : List String
  output_modalities : List String
  tokenizer : String
  instruct_type : Option String := none
deriving DecidableEq, Repr

/-- `TopProvider`. -/
structure TopProvider where
  context_length : Option Int := none
  max_completion_tokens : Option Int := none
  is_moderated : Bool := false
deriving DecidableEq, Repr

/-- `Endpoint` — one provider-hosted variant of a model.  The
`pricing` dict (`dict[str, Any]`) is modelled as an association list
of string keys to string values; `uptime_last_30m` (a float in the
source, irrelevant to every claim) is carried as its string form. -/
structure Endpoint where
  name : String
  model_name : String
  context_length : Int
  pricing : List (String × String)
  provider_name : String
  tag : String
  quantization : Option String := none
  max_completion_tokens : Option Int := none
  max_prompt_tokens : Option Int := none
  supported_parameters : List String := []
  status : Int
  uptime_last_30m : Option String := none
  supports_implicit_caching : Bool := false
deriving DecidableEq, Repr

/-- `OpenRouterModelWithEndpoints` — a fully normalized candidate.
`default_parameters` (JSON map) is an association list; timestamps
are epoch seconds. -/
structure ORModel where
  openrouter_id : String
  name : String
  description : String
  context_length : Int
  pricing : Pricing
  architecture : Architecture
  top_provider : TopProvider
  created : Int := 0
  supported_parameters : List String := []
  default_parameters : Option (List (String × String)) := none
  providers : List Endpoint
  author : String
  model_name : String
  created_at : Int := 0
  last_updated : Int := 0
deriving DecidableEq, Repr

/-- The natural key `(author, model_name)` of a candidate. -/
def modelKey (m : ORModel) : String × String := (m.author, m.model_name)

/-! ### ZDR models — `scripts/setup/models/zdr.py` -/

/-- `ZDREndpointPricing`: ten decimal-string fields, each defaulting
to `"0"` when absent from the raw payload. -/
structure ZDREndpointPricing where
  prompt_cost : String := "0"
  completion_cost : String := "0"
  request_cost : String := "0"
  image_cost : String := "0"
  image_output_cost : String := "0"
  audio_cost : String := "0"
  input_audio_cache_cost : String := "0"
  input_cache_read_cost : String := "0"
  input_cache_write_cost : String := "0"
  discount : String := "0"
deriving DecidableEq, Repr

/-- `ZDREndpoint`, keyed by `(provider_name, model_name, tag)`. -/
structure ZDREndpoint where
  provider_name : String
  model_name : String
  tag : String
  pricing : ZDREndpointPricing
deriving DecidableEq, Repr

/-- The `zdr_lookup` dict, keyed by `(provider_name, model_name, tag)`. -/
abbrev ZdrLookup : Type := List ((String × String × String) × ZDREndpoint)

/-- `zdr_lookup.get(key)`. -/
def zdrGet (l : ZdrLookup) (k : String × String × String) : Option ZDREndpoint :=
  (List.find? (fun p => p.1 = k) l).map (fun p => p.2)

/-- `d.get(k)` on a string-keyed dict. -/
def dictGet (d : List (String × String)) (k : String) : Option String :=
  (d.find? (fun p => p.1 == k)).map (fun p => p.2)

/-- `d.get(k, v)` on a string-keyed dict. -/
def dictGetD (d : List (String × String)) (k v : String) : String :=
  (dictGet d k).getD v

/-- Python truthiness of an optional string column: `None` and `""`
are falsy (`not x or x == ""`). -/
def optStrFalsy : Option String → Bool
  | none => true
  | some s => s == ""

/-- Python truthiness of an optional string: `some` of a nonempty
string (used for candidate fields such as `ep.quantization`). -/
def optStrTruthy : Option String → Bool
  | none => false
  | some s => s != ""

/-- The stored-value test `not x or x == "0"` used by the pricing
updaters on non-null string columns: true iff `""` or `"0"`. -/
def strFalsyOrZero (s : String) : Bool := s == "" || s == "0"

/-! ### Database rows — `scripts/setup/models/database.py` -/

/-- `llm_models` row.  Unique constraint: `(author, model_name)`. -/
structure LLMModelRow where
  id : Nat
  author : String
  model_name : String
  display_name : Option String := none
  description : Option String := none
  context_length : Option Int := none
  created_at : Int := 0
  last_updated : Int := 0
deriving DecidableEq, Repr

/-- `model_pricing` row (1:1 with `llm_models`). -/
structure ModelPricingRow where
  id : Nat
  model_id : Nat
  prompt_cost : String
  completion_cost : String
  request_cost : String := "0"
  image_cost : String := "0"
  web_search_cost : String := "0"
  internal_reasoning_cost : String := "0"
deriving DecidableEq, Repr

/-- `model_architecture` row (1:1 with `llm_models`). -/
structure ModelArchitectureRow where
  id : Nat
  model_id : Nat
  modality : String
  tokenizer : String
  instruct_type : Option String := none
deriving DecidableEq, Repr

/-- `model_architecture_modalities` row. -/
structure ModelArchitectureModalityRow where
  id : Nat
  architecture_id : Nat
  modality_type : String
  modality_value : String
deriving DecidableEq, Repr

/-- `model_top_provider` row (1:1 with `llm_models`). -/
structure ModelTopProviderRow where
  id : Nat
  model_id : Nat
  context_length : Option Int := none
  max_completion_tokens : Option Int := none
  is_moderated : String := "false"
deriving DecidableEq, Repr

/-- `model_endpoints` row.  Unique constraint:
`(model_id, name, provider_name, tag)`. -/
structure ModelEndpointRow where
  id : Nat
  model_id : Nat
  name : String
  endpoint_model_name : String
  context_length : Int
  provider_name : String
  tag : String
  quantization : Option String := none
  max_completion_tokens : Option Int := none
  max_prompt_tokens : Option Int := none
  status : Int
  uptime_last_30m : Option String := none
  supports_implicit_caching : String := "false"
  is_zdr : String := "false"
deriving DecidableEq, Repr

/-- `model_endpoint_pricing` row (1:1 with `model_endpoints`). -/
structure ModelEndpointPricingRow where
  id : Nat
  endpoint_id : Nat
  prompt_cost : String := "0"
  completion_cost : String := "0"
  request_cost : String := "0"
  image_cost : String := "0"
  image_output_cost : String := "0"
  audio_cost : String := "0"
  input_audio_cache_cost : String := "0"
  input_cache_read_cost : String := "0"
  input_cache_write_cost : String := "0"
  discount : String := "0"
deriving DecidableEq, Repr

/-- `model_supported_parameters` row. -/
structure ModelSupportedParameterRow where
  id : Nat
  model_id : Nat
  parameter_name : String
deriving DecidableEq, Repr

/-- `model_default_parameters` row (JSON payload as an assoc list). -/
structure ModelDefaultParametersRow where
  id : Nat
  model_id : Nat
  parameters : List (String × String) := []
deriving DecidableEq, Repr

/-- `sync_metadata` row.  Unique constraint: `sync_type`. -/
structure SyncRow where
  id : Nat
  sync_type : String
  last_sync_at : Int
  models_count : Option Int := none
  zdr_endpoints_count : Option Int := none
deriving DecidableEq, Repr

/-- The normalized store: one list per table (insertion order kept,
mirroring autoincrement ids). -/
structure Tables where
  llm_models : List LLMModelRow := []
  model_pricing : List ModelPricingRow := []
  model_architecture : List ModelArchitectureRow := []
  model_architecture_modalities : List ModelArchitectureModalityRow := []
  model_top_provider : List ModelTopProviderRow := []
  model_endpoints : List ModelEndpointRow := []
  model_endpoint_pricing : List ModelEndpointPricingRow := []
  model_supported_parameters : List ModelSupportedParameterRow := []
  model_default_parameters : List ModelDefaultParametersRow := []
deriving DecidableEq, Repr

/-- The empty store. -/
def Tables.empty : Tables := {}

/-- Per-table concatenation (used to form the in-transaction view). -/
def Tables.append (t u : Tables) : Tables where
  llm_models := t.llm_models ++ u.llm_models
  model_pricing := t.model_pricing ++ u.model_pricing
  model_architecture := t.model_architecture ++ u.model_architecture
  model_architecture_modalities :=
    t.model_architecture_modalities ++ u.model_architecture_modalities
  model_top_provider := t.model_top_provider ++ u.model_top_provider
  model_endpoints := t.model_endpoints ++ u.model_endpoints
  model_endpoint_pricing := t.model_endpoint_pricing ++ u.model_endpoint_pricing
  model_supported_parameters :=
    t.model_supported_parameters ++ u.model_supported_parameters
  model_default_parameters :=
    t.model_default_parameters ++ u.model_default_parameters

/-- An open SQLAlchemy `AsyncSession`: committed state, pending
(added/flushed but uncommitted) rows, and the autoincrement counter. -/
structure Session where
  db : Tables
  pending : Tables := {}
  nextId : Nat := 1
deriving DecidableEq, Repr

/-- What a `SELECT` through the session sees mid-transaction:
committed rows plus flushed pending rows. -/
def Session.visible (s : Session) : Tables := s.db.append s.pending

/-- `session.commit()`: pending rows become committed. -/
def Session.commit (s : Session) : Session :=
  { db := s.db.append s.pending, pending := {}, nextId := s.nextId }

/-- `session.rollback()`: the whole uncommitted transaction is
discarded — every pending row, not only the most recent ones. -/
def Session.rollback (s : Session) : Session :=
  { db := s.db, pending := {}, nextId := s.nextId }

/-! ### Freshness gate — `should_sync` in `scripts/setup/__init__.py`

`should_sync` only issues a `SELECT` (order by `last_sync_at`
descending, limit 1) and returns a boolean: it is read-only, which
the embedding reflects by returning `Bool` with no state. -/

/-- The row `should_sync` reads: among rows of the given `sync_type`,
the one with the greatest `last_sync_at` (first of the descending
order, limit 1). -/
def latestSyncRow (rows : List SyncRow) (t : String) : Option SyncRow :=
  (rows.filter (fun r => r.sync_type == t)).foldl
    (fun best r =>
      match best with
      | none => some r
      | some b => if r.last_sync_at > b.last_sync_at then some r else some b)
    none

/-- `should_sync(session, sync_type, max_age_hours)`: `true` when no
row exists; otherwise `true` iff
`(now - last_sync_at).total_seconds() / 3600 ≥ max_age_hours`.
Times are epoch seconds; the age is formed in `ℚ` to mirror the
exact real-valued division. -/
def should_sync (rows : List SyncRow) (sync_type : String) (now : Int)
    (max_age_hours : Int := 24) : Bool :=
  match latestSyncRow rows sync_type with
  | none => true
  | some last =>
      decide ((((now - last.last_sync_at : Int) : ℚ) / 3600) ≥ (max_age_hours : ℚ))

/-! ### Sync-metadata recording — `main_async`, `scripts/setup/__init__.py`
lines 149–168.

After a fetch, `main_async` builds two transient `SyncMetadata`
objects (primary key left unset) and passes each to
`session.merge(...)`.  `merge` resolves instances by PRIMARY KEY:
with the key unset it has nothing to match against and produces a
pending INSERT with a fresh autoincrement id.  The commit then
executes both INSERTs; the table's `UniqueConstraint("sync_type")`
rejects a row whose `sync_type` is already present
(`IntegrityError`, modelled as `Except.error`). -/
def recordSyncRun (rows : List SyncRow) (nextId : Nat) (now : Int)
    (modelsCount zdrCount : Int) : Except Unit (List SyncRow × Nat) :=
  let r1 : SyncRow :=
    { id := nextId, sync_type := "openrouter_models", last_sync_at := now,
      models_count := some modelsCount }
  let r2 : SyncRow :=
    { id := nextId + 1, sync_type := "zdr_endpoints", last_sync_at := now,
      zdr_endpoints_count := some zdrCount }
  if rows.any (fun r => r.sync_type == "openrouter_models") ||
      rows.any (fun r => r.sync_type == "zdr_endpoints") then
    .error ()
  else
    .ok (rows ++ [r1, r2], nextId + 2)

/-! ### Endpoint-pricing construction on the insert path —
`bulk_insert_models`, `scripts/setup/inserters/bulk_insert.py`
lines 178–209. -/

/-- The `ModelEndpointPricing` row built for a newly created
endpoint: when a ZDR entry exists, all ten fields come from it;
otherwise the four endpoint-native keys are read from the endpoint's
own pricing dict with default `"0"`, and the remaining six fields are
the literal `"0"`. -/
def mkEndpointPricingInsert (zdrEp : Option ZDREndpoint) (ep : Endpoint)
    (endpoint_id rowId : Nat) : ModelEndpointPricingRow :=
  match zdrEp with
  | some z =>
      { id := rowId, endpoint_id := endpoint_id,
        prompt_cost := z.pricing.prompt_cost,
        completion_cost := z.pricing.completion_cost,
        request_cost := z.pricing.request_cost,
        image_cost := z.pricing.image_cost,
        image_output_cost := z.pricing.image_output_cost,
        audio_cost := z.pricing.audio_cost,
        input_audio_cache_cost := z.pricing.input_audio_cache_cost,
        input_cache_read_cost := z.pricing.input_cache_read_cost,
        input_cache_write_cost := z.pricing.input_cache_write_cost,
        discount := z.pricing.discount }
  | none =>
      { id := rowId, endpoint_id := endpoint_id,
        prompt_cost := dictGetD ep.pricing "prompt" "0",
        completion_cost := dictGetD ep.pricing "completion" "0",
        request_cost := dictGetD ep.pricing "request" "0",
        image_cost := dictGetD ep.pricing "image" "0",
        image_output_cost := "0",
        audio_cost := "0",
        input_audio_cache_cost := "0",
        input_cache_read_cost := "0",
        input_cache_write_cost := "0",
        discount := "0" }

/-- The ten endpoint-pricing fields. -/
inductive EPField
  | prompt | completion | request | image | image_output | audio
  | input_audio_cache | input_cache_read | input_cache_write | discount
deriving DecidableEq, Repr

/-- Projection of a pricing row at a field. -/
def rowField : EPField → ModelEndpointPricingRow → String
  | .prompt, r => r.prompt_cost
  | .completion, r => r.completion_cost
  | .request, r => r.request_cost
  | .image, r => r.image_cost
  | .image_output, r => r.image_output_cost
  | .audio, r => r.audio_cost
  | .input_audio_cache, r => r.input_audio_cache_cost
  | .input_cache_read, r => r.input_cache_read_cost
  | .input_cache_write, r => r.input_cache_write_cost
  | .discount, r => r.discount

/-- Projection of a `ZDREndpointPricing` at a field. -/
def zdrField : EPField → ZDREndpointPricing → String
  | .prompt, z => z.prompt_cost
  | .completion, z => z.completion_cost
  | .request, z => z.request_cost
  | .image, z => z.image_cost
  | .image_output, z => z.image_output_cost
  | .audio, z => z.audio_cost
  | .input_audio_cache, z => z.input_audio_cache_cost
  | .input_cache_read, z => z.input_cache_read_cost
  | .input_cache_write, z => z.input_cache_write_cost
  | .discount, z => z.discount

/-- The value the insert path stores for a field of a brand-new
endpoint's pricing row. -/
def insertStoredField (f : EPField) (zdrEp : Option ZDREndpoint)
    (ep : Endpoint) : String :=
  rowField f (mkEndpointPricingInsert zdrEp ep 0 0)

/-- The dict keys the update path reads in its no-ZDR branch
(`update_existing_endpoint_pricing`, lines 207–223): only four
fields, under `"*_cost"` names. -/
def updateDictKey : EPField → Option String
  | .prompt => some "prompt_cost"
  | .completion => some "completion_cost"
  | .request => some "request_cost"
  | .image => some "image_cost"
  | _ => none

/-- The value the update path treats as the incoming value for a
field (`update_existing_endpoint_pricing`,
`scripts/setup/updaters/pricing.py` lines 141–223): with a ZDR entry,
the ZDR field when truthy (nonempty); without one, the value at the
`"*_cost"` dict key when present and truthy — the remaining six
fields are never touched in that branch.  `none` means the update
path has no incoming value for the field and leaves it alone. -/
def updateIncomingField (f : EPField) (zdrEp : Option ZDREndpoint)
    (ep : Endpoint) : Option String :=
  match zdrEp with
  | some z => if zdrField f z.pricing != "" then some (zdrField f z.pricing) else none
  | none =>
      match updateDictKey f with
      | none => none
      | some k =>
          match dictGet ep.pricing k with
          | none => none
          | some v => if v != "" then some v else none

/-! ### Bulk insert — `scripts/setup/inserters/bulk_insert.py`

The insert path: load the existing `(author, model_name)` key set
once, filter the candidates, and build each new model's subgraph
inside one try/except.  An exception triggers `session.rollback()`
(which discards the whole uncommitted transaction) and `continue`;
one `session.commit()` runs after the loop.  Exceptions have two
sources here: the `uq_author_model` unique constraint firing at
`session.flush()`, and any error while building the subgraph —
modelled by the `failing` oracle, checked after the core row is
flushed (partially-written rows exist at that point). -/

/-- Does a row with this `(author, model_name)` key exist in the
given table view? -/
def keyExists (t : Tables) (a n : String) : Bool :=
  t.llm_models.any (fun r => r.author == a && r.model_name == n)

/-- The `(author, model_name)` keys of a table view's model rows. -/
def llmKeys (t : Tables) : List (String × String) :=
  t.llm_models.map (fun r => (r.author, r.model_name))

/-- `get_existing_models_from_db`: the set of stored
`(author, model_name)` pairs, read through the session. -/
def get_existing_models_from_db (s : Session) : List (String × String) :=
  llmKeys s.visible

/-- Step 1 of the subgraph: add the core `LLMModel` row and flush.
The flush executes the INSERT; the `uq_author_model` unique
constraint rejects a key already visible in the transaction. -/
def coreRow (m : ORModel) (idv : Nat) : LLMModelRow :=
  { id := idv, author := m.author, model_name := m.model_name,
    display_name := some m.name, description := some m.description,
    context_length := some m.context_length,
    created_at := m.created_at, last_updated := m.last_updated }

/-- Step 1 of the subgraph (continued): perform the add and flush. -/
def flushNewLLMModel (s : Session) (m : ORModel) :
    Except Unit (Session × Nat) :=
  if keyExists s.visible m.author m.model_name then .error ()
  else
    .ok ({ s with
            pending := { s.pending with
              llm_models := s.pending.llm_models ++ [coreRow m s.nextId] },
            nextId := s.nextId + 1 },
         s.nextId)

/-- Add one architecture-modality row to the pending set. -/
def addModalityRow (archId : Nat) (ty : String) (s : Session) (v : String) :
    Session :=
  { s with
    pending := { s.pending with
      model_architecture_modalities :=
        s.pending.model_architecture_modalities ++
          [{ id := s.nextId, architecture_id := archId,
             modality_type := ty, modality_value := v }] },
    nextId := s.nextId + 1 }

/-- Add one supported-parameter row to the pending set. -/
def addSupportedParamRow (model_id : Nat) (s : Session) (p : String) :
    Session :=
  { s with
    pending := { s.pending with
      model_supported_parameters :=
        s.pending.model_supported_parameters ++
          [{ id := s.nextId, model_id := model_id, parameter_name := p }] },
    nextId := s.nextId + 1 }

/-- Step 8/9 of the subgraph, for one endpoint candidate: reuse an
endpoint whose `(model_id, name, provider_name, tag)` key is already
visible (OpenRouter API duplicates); otherwise create the endpoint
and its pricing row via the ZDR-preferred construction. -/
def insertEndpointStep (zdr : ZdrLookup) (model_id : Nat) (s : Session)
    (ep : Endpoint) : Session :=
  match s.visible.model_endpoints.find? (fun r =>
      r.model_id == model_id && r.name == ep.name &&
      r.provider_name == ep.provider_name && r.tag == ep.tag) with
  | some _ => s
  | none =>
      let zdr_key := (ep.provider_name, ep.model_name, ep.tag)
      let is_zdr := if (zdrGet zdr zdr_key).isSome then "true" else "false"
      let endpointId := s.nextId
      let eprow : ModelEndpointRow :=
        { id := endpointId, model_id := model_id, name := ep.name,
          endpoint_model_name := ep.model_name,
          context_length := ep.context_length,
          provider_name := ep.provider_name, tag := ep.tag,
          quantization := ep.quantization,
          max_completion_tokens := ep.max_completion_tokens,
          max_prompt_tokens := ep.max_prompt_tokens,
          status := ep.status,
          uptime_last_30m :=
            if optStrTruthy ep.uptime_last_30m then ep.uptime_last_30m
            else none,
          supports_implicit_caching :=
            if ep.supports_implicit_caching then "true" else "false",
          is_zdr := is_zdr }
      let pricingRow :=
        mkEndpointPricingInsert (zdrGet zdr zdr_key) ep endpointId
          (s.nextId + 1)
      { s with
        pending := { s.pending with
          model_endpoints := s.pending.model_endpoints ++ [eprow],
          model_endpoint_pricing :=
            s.pending.model_endpoint_pricing ++ [pricingRow] },
        nextId := s.nextId + 2 }

/-- Build one candidate's whole subgraph (steps 1–9 of
`bulk_insert_models`).  `failing m = true` injects the claimed
"exception while building one model's subgraph" right after the core
row has been flushed. -/
def insertModelSubgraph (zdr : ZdrLookup) (failing : ORModel → Bool)
    (s : Session) (m : ORModel) : Except Unit Session :=
  match flushNewLLMModel s m with
  | .error _ => .error ()
  | .ok (s1, model_id) =>
    if failing m then .error ()
    else
      let s2 : Session :=
        { s1 with
          pending := { s1.pending with
            model_pricing := s1.pending.model_pricing ++
              [{ id := s1.nextId, model_id := model_id,
                 prompt_cost := m.pricing.prompt,
                 completion_cost := m.pricing.completion,
                 request_cost := m.pricing.request,
                 image_cost := m.pricing.image,
                 web_search_cost := m.pricing.web_search,
                 internal_reasoning_cost := m.pricing.internal_reasoning }] },
          nextId := s1.nextId + 1 }
      let archId := s2.nextId
      let s3 : Session :=
        { s2 with
          pending := { s2.pending with
            model_architecture := s2.pending.model_architecture ++
              [{ id := archId, model_id := model_id,
                 modality := m.architecture.modality,
                 tokenizer := m.architecture.tokenizer,
                 instruct_type := m.architecture.instruct_type }] },
          nextId := s2.nextId + 1 }
      let s4 := m.architecture.input_modalities.foldl
        (addModalityRow archId "input") s3
      let s5 := m.architecture.output_modalities.foldl
        (addModalityRow archId "output") s4
      let s6 : Session :=
        { s5 with
          pending := { s5.pending with
            model_top_provider := s5.pending.model_top_provider ++
              [{ id := s5.nextId, model_id := model_id,
                 context_length := m.top_provider.context_length,
                 max_completion_tokens := m.top_provider.max_completion_tokens,
                 is_moderated :=
                   if m.top_provider.is_moderated then "true"
                   else "false" }] },
          nextId := s5.nextId + 1 }
      let s7 := m.supported_parameters.foldl
        (addSupportedParamRow model_id) s6
      let s8 : Session :=
        match m.default_parameters with
        | some ps =>
            if ps.isEmpty then s7
            else
              { s7 with
                pending := { s7.pending with
                  model_default_parameters :=
                    s7.pending.model_default_parameters ++
                      [{ id := s7.nextId, model_id := model_id,
                         parameters := ps }] },
                nextId := s7.nextId + 1 }
        | none => s7
      .ok (m.providers.foldl (insertEndpointStep zdr model_id) s8)

/-- One iteration of the insert loop: try the subgraph; on success
count it, on exception roll the open transaction back and continue. -/
def bulkInsertStep (zdr : ZdrLookup) (failing : ORModel → Bool)
    (acc : Session × Nat) (m : ORModel) : Session × Nat :=
  match insertModelSubgraph zdr failing acc.1 m with
  | .ok s2 => (s2, acc.2 + 1)
  | .error _ => (acc.1.rollback, acc.2)

/-- `bulk_insert_models(session, models, zdr_lookup)`: skip candidates
whose key pre-exists, insert the rest one subgraph at a time, roll
back the open transaction on any per-model exception and continue,
commit once, and return `(inserted_count, skipped)`. -/
def bulk_insert_models (s : Session) (models : List ORModel)
    (zdr : ZdrLookup) (failing : ORModel → Bool) : Session × Nat × Nat :=
  let existing := get_existing_models_from_db s
  let new_models := models.filter (fun m => !(decide (modelKey m ∈ existing)))
  let skipped := models.length - new_models.length
  if new_models.isEmpty then (s, 0, skipped)
  else
    let res := new_models.foldl (bulkInsertStep zdr failing) (s, 0)
    (res.1.commit, res.2, skipped)

/-- The no-exception oracle: no candidate raises while its subgraph
is built (the unique-constraint flush failure can still occur). -/
def noFail : ORModel → Bool := fun _ => false

/-! ### Update path — `scripts/setup/updaters/*.py`

Each update function iterates the candidates, resolves the stored
model row by `(author, model_name)` (skipping candidates with no
row), mutates the fetched ORM row in place, and counts a candidate
when its `updated` flag ends up true.  Mutating the fetched row is
modelled by replacing the first matching row of the table. -/

/-- Replace the first element satisfying `p` (the row the ORM query
returned and the updater mutated in place). -/
def replaceFirst (p : α → Bool) (a : α) : List α → List α
  | [] => []
  | x :: xs => if p x then a :: xs else x :: replaceFirst p a xs

/-- The model-row lookup every update function starts with. -/
def llmRowMatch (m : ORModel) (r : LLMModelRow) : Bool :=
  r.author == m.author && r.model_name == m.model_name

/-- The `model_id` a candidate resolves to, if any. -/
def lookupModelId (db : Tables) (a n : String) : Option Nat :=
  (db.llm_models.find? (fun r => r.author == a && r.model_name == n)).map
    (fun r => r.id)

/-- The stored-value test `x is None or x == 0` on a nullable integer
column. -/
def optIntFalsy : Option Int → Bool
  | none => true
  | some x => x == 0

/-- One candidate of `update_existing_llm_models`
(`updaters/llm_models.py`): fill `display_name`, `description`,
`context_length` when empty and the incoming value is truthy;
`last_updated` is stamped and the candidate counted iff some field
was set. -/
def llmUpdateStep (now : Int) (db : Tables) (m : ORModel) : Tables × Bool :=
  match db.llm_models.find? (llmRowMatch m) with
  | none => (db, false)
  | some r =>
    let (r1, u1) :=
      if m.name != "" && optStrFalsy r.display_name then
        ({ r with display_name := some m.name }, true)
      else (r, false)
    let (r2, u2) :=
      if m.description != "" && optStrFalsy r1.description then
        ({ r1 with description := some m.description }, true)
      else (r1, false)
    let (r3, u3) :=
      if m.context_length != 0 && optIntFalsy r2.context_length then
        ({ r2 with context_length := some m.context_length }, true)
      else (r2, false)
    if u1 || u2 || u3 then
      let r4 := { r3 with last_updated := now }
      let rows := replaceFirst (llmRowMatch m) r4 db.llm_models
      ({ db with llm_models := rows }, true)
    else (db, false)

/-- `update_existing_llm_models(session, models)`. -/
def update_existing_llm_models (db : Tables) (models : List ORModel)
    (now : Int) : Tables × Nat :=
  models.foldl
    (fun acc m =>
      let r := llmUpdateStep now acc.1 m
      (r.1, acc.2 + if r.2 then 1 else 0))
    (db, 0)

/-- One candidate of `update_existing_model_pricing`
(`updaters/pricing.py` lines 22–88): six fill-if-empty fields, where
"empty" is `""` or `"0"` and incoming truthiness is nonemptiness. -/
def pricingUpdateStep (db : Tables) (m : ORModel) : Tables × Bool :=
  match db.llm_models.find? (llmRowMatch m) with
  | none => (db, false)
  | some mr =>
    match db.model_pricing.find? (fun p => p.model_id == mr.id) with
    | none => (db, false)
    | some p =>
      let (p1, u1) :=
        if m.pricing.prompt != "" && strFalsyOrZero p.prompt_cost then
          ({ p with prompt_cost := m.pricing.prompt }, true)
        else (p, false)
      let (p2, u2) :=
        if m.pricing.completion != "" && strFalsyOrZero p1.completion_cost then
          ({ p1 with completion_cost := m.pricing.completion }, true)
        else (p1, false)
      let (p3, u3) :=
        if m.pricing.request != "" && strFalsyOrZero p2.request_cost then
          ({ p2 with request_cost := m.pricing.request }, true)
        else (p2, false)
      let (p4, u4) :=
        if m.pricing.image != "" && strFalsyOrZero p3.image_cost then
          ({ p3 with image_cost := m.pricing.image }, true)
        else (p3, false)
      let (p5, u5) :=
        if m.pricing.web_search != "" && strFalsyOrZero p4.web_search_cost then
          ({ p4 with web_search_cost := m.pricing.web_search }, true)
        else (p4, false)
      let (p6, u6) :=
        if m.pricing.internal_reasoning != "" &&
            strFalsyOrZero p5.internal_reasoning_cost then
          ({ p5 with internal_reasoning_cost := m.pricing.internal_reasoning },
           true)
        else (p5, false)
      if u1 || u2 || u3 || u4 || u5 || u6 then
        let rows := replaceFirst (fun q => q.model_id == mr.id) p6
          db.model_pricing
        ({ db with model_pricing := rows }, true)
      else (db, false)

/-- `update_existing_model_pricing(session, models)`. -/
def update_existing_model_pricing (db : Tables) (models : List ORModel) :
    Tables × Nat :=
  models.foldl
    (fun acc m =>
      let r := pricingUpdateStep acc.1 m
      (r.1, acc.2 + if r.2 then 1 else 0))
    (db, 0)

/-- One candidate of `update_existing_top_provider`
(`updaters/providers.py`): `context_length` and
`max_completion_tokens` are overwritten whenever the incoming value
is not `None`; `is_moderated` is always overwritten and the code sets
`updated = True` unconditionally at that point — so every candidate
whose model and top-provider rows exist is counted. -/
def topProviderUpdateStep (db : Tables) (m : ORModel) : Tables × Bool :=
  match db.llm_models.find? (llmRowMatch m) with
  | none => (db, false)
  | some mr =>
    match db.model_top_provider.find? (fun t => t.model_id == mr.id) with
    | none => (db, false)
    | some tp =>
      let t1 :=
        if m.top_provider.context_length.isSome then
          { tp with context_length := m.top_provider.context_length }
        else tp
      let t2 :=
        if m.top_provider.max_completion_tokens.isSome then
          { t1 with
            max_completion_tokens := m.top_provider.max_completion_tokens }
        else t1
      let t3 :=
        { t2 with
          is_moderated :=
            if m.top_provider.is_moderated then "true" else "false" }
      let rows := replaceFirst (fun t => t.model_id == mr.id) t3
        db.model_top_provider
      ({ db with model_top_provider := rows }, true)

/-- `update_existing_top_provider(session, models)`. -/
def update_existing_top_provider (db : Tables) (models : List ORModel) :
    Tables × Nat :=
  models.foldl
    (fun acc m =>
      let r := topProviderUpdateStep acc.1 m
      (r.1, acc.2 + if r.2 then 1 else 0))
    (db, 0)

/-- The endpoint-row lookup shared by the endpoint updaters. -/
def endpointRowMatch (model_id : Nat) (ep : Endpoint)
    (r : ModelEndpointRow) : Bool :=
  r.model_id == model_id && r.name == ep.name &&
    r.provider_name == ep.provider_name && r.tag == ep.tag

/-- One endpoint of `update_existing_endpoints`
(`updaters/endpoints.py`): four fill-if-empty fields, then `status`,
`supports_implicit_caching` and `is_zdr` always refreshed with
`updated = True` set unconditionally — every matched endpoint is
counted. -/
def endpointUpdateStep (zdr : ZdrLookup) (model_id : Nat)
    (acc : Tables × Nat) (ep : Endpoint) : Tables × Nat :=
  let db := acc.1
  match db.model_endpoints.find? (endpointRowMatch model_id ep) with
  | none => acc
  | some r =>
    let r1 :=
      if ep.context_length != 0 && r.context_length == 0 then
        { r with context_length := ep.context_length }
      else r
    let r2 :=
      if optStrTruthy ep.quantization && optStrFalsy r1.quantization then
        { r1 with quantization := ep.quantization }
      else r1
    let r3 :=
      if ep.max_completion_tokens.isSome && r2.max_completion_tokens.isNone
      then { r2 with max_completion_tokens := ep.max_completion_tokens }
      else r2
    let r4 :=
      if ep.max_prompt_tokens.isSome && r3.max_prompt_tokens.isNone then
        { r3 with max_prompt_tokens := ep.max_prompt_tokens }
      else r3
    let r5 :=
      { r4 with
        status := ep.status,
        supports_implicit_caching :=
          if ep.supports_implicit_caching then "true" else "false" }
    let r6 :=
      { r5 with
        is_zdr :=
          if (zdrGet zdr (ep.provider_name, ep.model_name, ep.tag)).isSome
          then "true" else "false" }
    let rows := replaceFirst (endpointRowMatch model_id ep) r6
      db.model_endpoints
    ({ db with model_endpoints := rows }, acc.2 + 1)

/-- `update_existing_endpoints(session, models, zdr_lookup)`. -/
def update_existing_endpoints (db : Tables) (models : List ORModel)
    (zdr : ZdrLookup) : Tables × Nat :=
  models.foldl
    (fun acc m =>
      match acc.1.llm_models.find? (llmRowMatch m) with
      | none => acc
      | some mr => m.providers.foldl (endpointUpdateStep zdr mr.id) acc)
    (db, 0)

/-- The per-row field updates of `update_existing_endpoint_pricing`
(`updaters/pricing.py` lines 141–226): with a ZDR entry, ten
fill-if-empty fields sourced from the ZDR record; without one, four
fields sourced from the endpoint pricing dict under `"*_cost"` keys
(no default).  Returns the new row and the `updated` flag. -/
def epPricingUpdateRow (zdrEp : Option ZDREndpoint) (ep : Endpoint)
    (p : ModelEndpointPricingRow) : ModelEndpointPricingRow × Bool :=
  match zdrEp with
  | some z =>
    let (p1, u1) :=
      if z.pricing.prompt_cost != "" && strFalsyOrZero p.prompt_cost then
        ({ p with prompt_cost := z.pricing.prompt_cost }, true)
      else (p, false)
    let (p2, u2) :=
      if z.pricing.completion_cost != "" && strFalsyOrZero p1.completion_cost
      then ({ p1 with completion_cost := z.pricing.completion_cost }, true)
      else (p1, false)
    let (p3, u3) :=
      if z.pricing.request_cost != "" && strFalsyOrZero p2.request_cost then
        ({ p2 with request_cost := z.pricing.request_cost }, true)
      else (p2, false)
    let (p4, u4) :=
      if z.pricing.image_cost != "" && strFalsyOrZero p3.image_cost then
        ({ p3 with image_cost := z.pricing.image_cost }, true)
      else (p3, false)
    let (p5, u5) :=
      if z.pricing.image_output_cost != "" &&
          strFalsyOrZero p4.image_output_cost then
        ({ p4 with image_output_cost := z.pricing.image_output_cost }, true)
      else (p4, false)
    let (p6, u6) :=
      if z.pricing.audio_cost != "" && strFalsyOrZero p5.audio_cost then
        ({ p5 with audio_cost := z.pricing.audio_cost }, true)
      else (p5, false)
    let (p7, u7) :=
      if z.pricing.input_audio_cache_cost != "" &&
          strFalsyOrZero p6.input_audio_cache_cost then
        ({ p6 with
           input_audio_cache_cost := z.pricing.input_audio_cache_cost },
         true)
      else (p6, false)
    let (p8, u8) :=
      if z.pricing.input_cache_read_cost != "" &&
          strFalsyOrZero p7.input_cache_read_cost then
        ({ p7 with
           input_cache_read_cost := z.pricing.input_cache_read_cost },
         true)
      else (p7, false)
    let (p9, u9) :=
      if z.pricing.input_cache_write_cost != "" &&
          strFalsyOrZero p8.input_cache_write_cost then
        ({ p8 with
           input_cache_write_cost := z.pricing.input_cache_write_cost },
         true)
      else (p8, false)
    let (p10, u10) :=
      if z.pricing.discount != "" && strFalsyOrZero p9.discount then
        ({ p9 with discount := z.pricing.discount }, true)
      else (p9, false)
    (p10, u1 || u2 || u3 || u4 || u5 || u6 || u7 || u8 || u9 || u10)
  | none =>
    let (p1, u1) :=
      match dictGet ep.pricing "prompt_cost" with
      | some v =>
          if v != "" && strFalsyOrZero p.prompt_cost then
            ({ p with prompt_cost := v }, true)
          else (p, false)
      | none => (p, false)
    let (p2, u2) :=
      match dictGet ep.pricing "completion_cost" with
      | some v =>
          if v != "" && strFalsyOrZero p1.completion_cost then
            ({ p1 with completion_cost := v }, true)
          else (p1, false)
      | none => (p1, false)
    let (p3, u3) :=
      match dictGet ep.pricing "request_cost" with
      | some v =>
          if v != "" && strFalsyOrZero p2.request_cost then
            ({ p2 with request_cost := v }, true)
          else (p2, false)
      | none => (p2, false)
    let (p4, u4) :=
      match dictGet ep.pricing "image_cost" with
      | some v =>
          if v != "" && strFalsyOrZero p3.image_cost then
            ({ p3 with image_cost := v }, true)
          else (p3, false)
      | none => (p3, false)
    (p4, u1 || u2 || u3 || u4)

/-- One endpoint of `update_existing_endpoint_pricing`. -/
def endpointPricingStep (zdr : ZdrLookup) (model_id : Nat)
    (acc : Tables × Nat) (ep : Endpoint) : Tables × Nat :=
  let db := acc.1
  match db.model_endpoints.find? (endpointRowMatch model_id ep) with
  | none => acc
  | some er =>
    match db.model_endpoint_pricing.find? (fun p => p.endpoint_id == er.id)
    with
    | none => acc
    | some p =>
      let r :=
        epPricingUpdateRow
          (zdrGet zdr (ep.provider_name, ep.model_name, ep.tag)) ep p
      if r.2 then
        let rows := replaceFirst (fun q => q.endpoint_id == er.id) r.1
          db.model_endpoint_pricing
        ({ db with model_endpoint_pricing := rows }, acc.2 + 1)
      else acc

/-- `update_existing_endpoint_pricing(session, models, zdr_lookup)`. -/
def update_existing_endpoint_pricing (db : Tables) (models : List ORModel)
    (zdr : ZdrLookup) : Tables × Nat :=
  models.foldl
    (fun acc m =>
      match acc.1.llm_models.find? (llmRowMatch m) with
      | none => acc
      | some mr => m.providers.foldl (endpointPricingStep zdr mr.id) acc)
    (db, 0)

/-! ### The pipeline's database phase — `main_async`,
`scripts/setup/__init__.py` lines 203–253.

Step 5 runs the update functions, Step 6 runs `bulk_insert_models` —
in that order.  The embedding composes the five updaters embedded
above in their source order; the four omitted update functions
(architecture, architecture modalities, supported parameters, default
parameters) start with the identical `(author, model_name)` model-row
lookup and skip candidates with no row, exactly like the embedded
ones. -/

/-- Outcome of one run of the database phase of `main_async`. -/
structure PipelineResult where
  dbBeforeInsert : Tables
  dbFinal : Tables
  updatedLlm : Nat
  updatedPricing : Nat
  updatedTopProvider : Nat
  updatedEndpoints : Nat
  updatedEndpointPricing : Nat
  inserted : Nat
  skipped : Nat
deriving DecidableEq, Repr

/-- Steps 5 and 6 of `main_async`: the update pass (returning its
per-table counters), then the bulk insert, on the state the updates
left behind. -/
def main_db_phase (db : Tables) (nextId : Nat) (now : Int)
    (models : List ORModel) (zdr : ZdrLookup) : PipelineResult :=
  let u1 := update_existing_llm_models db models now
  let u2 := update_existing_model_pricing u1.1 models
  let u3 := update_existing_top_provider u2.1 models
  let u4 := update_existing_endpoints u3.1 models zdr
  let u5 := update_existing_endpoint_pricing u4.1 models zdr
  let r := bulk_insert_models { db := u5.1, pending := {}, nextId := nextId }
    models zdr noFail
  { dbBeforeInsert := u5.1, dbFinal := r.1.db,
    updatedLlm := u1.2, updatedPricing := u2.2, updatedTopProvider := u3.2,
    updatedEndpoints := u4.2, updatedEndpointPricing := u5.2,
    inserted := r.2.1, skipped := r.2.2 }

/-! ### Model-id parsing — `scripts/setup/fetchers/openrouter.py` -/

/-- Split a character list at its first `'/'`:
`model_id.split("/", 1)`, as `none` when there is no slash. -/
def splitFirstSlash : List Char → Option (List Char × List Char)
  | [] => none
  | c :: cs =>
      if c = '/' then some ([], cs)
      else (splitFirstSlash cs).map (fun p => (c :: p.1, p.2))

/-- `normalize_model_name`: the three exact Claude names have their
dots replaced by dashes; every other name is returned unchanged. -/
def normalize_model_name (s : String) : String :=
  if s = "claude-sonnet-4.5" ∨ s = "claude-haiku-4.5" ∨
      s = "claude-opus-4.1" then
    String.mk (s.data.map (fun c => if c = '.' then '-' else c))
  else s

/-- `parse_provider_model(model_id)`: `(None, None)` when the id has
no `'/'`; otherwise the part before the first `'/'` lowercased and
the part after it normalized. -/
def parse_provider_model (model_id : String) :
    Option String × Option String :=
  match splitFirstSlash model_id.data with
  | none => (none, none)
  | some (pre, post) =>
      (some (String.mk (pre.map Char.toLower)),
       some (normalize_model_name (String.mk post)))

/-- The author/model guard of `fetch_model_endpoints` (lines
137–141): the record is kept only when both parts are truthy
(`if not author or not model_name: return None` drops it from the
batch). -/
def fetchParsedKey (model_id : String) : Option (String × String) :=
  match parse_provider_model model_id with
  | (some a, some n) => if a != "" && n != "" then some (a, n) else none
  | _ => none

/-- A sample `sync_metadata` row used by concrete evaluations. -/
def sampleSyncRow : SyncRow :=
  { id := 1, sync_type := "openrouter_models", last_sync_at := 0 }

/-- A sample endpoint candidate whose own pricing block carries
`prompt = "5"` (under the insert path's key name). -/
def sampleEndpoint : Endpoint :=
  { name := "n", model_name := "m", context_length := 8, pricing := [("prompt", "5")], provider_name := "p", tag := "t", status := 0 }

/-- A sample ZDR entry whose pricing payload was absent, so every
field holds the parse-time default `"0"`. -/
def sampleZdrDefault : ZDREndpoint :=
  { provider_name := "p", model_name := "m", tag := "t", pricing := {} }

/-- A minimal well-formed candidate with the given key and no
endpoints. -/
def mkCandidate (a n : String) : ORModel :=
  { openrouter_id := a ++ "/" ++ n, name := n, description := "d", context_length := 4, pricing := { prompt := "1", completion := "2" }, architecture := { modality := "text", input_modalities := ["text"], output_modalities := ["text"], tokenizer := "tok" }, top_provider := {}, providers := [], author := a, model_name := n }

/-- A failure oracle: the candidate named `m2` raises while its
subgraph is built. -/
def failsM2 : ORModel → Bool := fun m => m.model_name == "m2"

/-- A batch of three fresh candidates where only the second raises
during subgraph construction, run against an empty store. -/
def c1Run : Session × Nat × Nat :=
  bulk_insert_models { db := {}, pending := {}, nextId := 1 } [mkCandidate "a" "m1", mkCandidate "a" "m2", mkCandidate "a" "m3"] [] failsM2

/-- A batch containing the same fresh key twice, run against an empty
store. -/
def dupRun1 : Session × Nat × Nat :=
  bulk_insert_models { db := {}, pending := {}, nextId := 1 } [mkCandidate "a" "m", mkCandidate "a" "m"] [] noFail

/-- The identical duplicate batch run again on the state the first
run left behind. -/
def dupRun2 : Session × Nat × Nat :=
  bulk_insert_models dupRun1.1 [mkCandidate "a" "m", mkCandidate "a" "m"] [] noFail

/-- One run of the database phase on an empty store with a single
brand-new candidate. -/
def c5Run : PipelineResult :=
  main_db_phase {} 1 50 [mkCandidate "a" "new"] []

/-- The guard disjunction of `update_existing_llm_models`: true iff
the candidate's model row exists and at least one of the three
fill-if-empty conditions fires (i.e. a stored field actually
changes). -/
def llmWouldFill (db : Tables) (m : ORModel) : Bool :=
  match db.llm_models.find? (llmRowMatch m) with
  | none => false
  | some r =>
      (m.name != "" && optStrFalsy r.display_name) ||
      (m.description != "" && optStrFalsy r.description) ||
      (m.context_length != 0 && optIntFalsy r.context_length)

/-- True iff the candidate's model row and its top-provider row both
exist (the only conditions `update_existing_top_provider` checks
before counting). -/
def topProviderMatched (db : Tables) (m : ORModel) : Bool :=
  match db.llm_models.find? (llmRowMatch m) with
  | none => false
  | some mr => (db.model_top_provider.find? (fun t => t.model_id == mr.id)).isSome

/-- True iff the candidate's model row and the endpoint's row both
exist (the only conditions `update_existing_endpoints` checks before
counting). -/
def endpointMatched (db : Tables) (m : ORModel) (ep : Endpoint) : Bool :=
  match db.llm_models.find? (llmRowMatch m) with
  | none => false
  | some mr => (db.model_endpoints.find? (endpointRowMatch mr.id ep)).isSome

/-- A store holding one model with a top-provider row whose stored
values already equal what the candidate `mkCandidate "a" "m"` brings
in (no nulls filled, `is_moderated` already `"false"`). -/
def c9Db : Tables :=
  { llm_models := [{ id := 1, author := "a", model_name := "m" }], model_top_provider := [{ id := 1, model_id := 1 }] }

/-- The identity-and-key view of a model row: everything the
updaters' model lookup can observe. -/
def llmTriple (r : LLMModelRow) : Nat × String × String :=
  (r.id, r.author, r.model_name)

/-! ## Helper lemmas -/

theorem splitFirstSlash_of_not_mem (l : List Char) (h : '/' ∉ l) :
    splitFirstSlash l = none := by
  induction l with
  | nil => rfl
  | cons c cs ih =>
      have hc : ¬c = '/' := fun hh => h (hh ▸ List.mem_cons_self c cs)
      have hcs : '/' ∉ cs := fun hh => h (List.mem_cons_of_mem c hh)
      simp [splitFirstSlash, hc, ih hcs]

theorem splitFirstSlash_append (pre post : List Char) (h : '/' ∉ pre) :
    splitFirstSlash (pre ++ '/' :: post) = some (pre, post) := by
  induction pre with
  | nil => simp [splitFirstSlash]
  | cons c cs ih =>
      have hc : ¬c = '/' := fun hh => h (hh ▸ List.mem_cons_self c cs)
      have hcs : '/' ∉ cs := fun hh => h (List.mem_cons_of_mem c hh)
      simp [splitFirstSlash, hc, ih hcs]

/-! ## Claim theorems -/

/-- C10: the `(author, model_name)` key is derived by splitting the
raw id at its first `'/'`; the author part is lowercased and the
model-name part kept as-is, except that the three exact Claude names
have dots replaced by dashes; an id with no `'/'` parses to
`(None, None)` and the record is dropped from the batch. -/
theorem c10_parse_provider_model :
    (∀ model_id : String, '/' ∉ model_id.data →
      parse_provider_model model_id = (none, none) ∧
      fetchParsedKey model_id = none) ∧
    (∀ pre post : List Char, '/' ∉ pre →
      parse_provider_model (String.mk (pre ++ '/' :: post)) =
        (some (String.mk (pre.map Char.toLower)),
         some (normalize_model_name (String.mk post)))) ∧
    (normalize_model_name "claude-sonnet-4.5" = "claude-sonnet-4-5" ∧
     normalize_model_name "claude-haiku-4.5" = "claude-haiku-4-5" ∧
     normalize_model_name "claude-opus-4.1" = "claude-opus-4-1") ∧
    (∀ s : String,
      s ≠ "claude-sonnet-4.5" → s ≠ "claude-haiku-4.5" →
      s ≠ "claude-opus-4.1" → normalize_model_name s = s) := by
  refine ⟨?_, ?_, ⟨by decide, by decide, by decide⟩, ?_⟩
  · intro model_id h
    constructor
    · simp [parse_provider_model, splitFirstSlash_of_not_mem _ h]
    · simp [fetchParsedKey, parse_provider_model,
        splitFirstSlash_of_not_mem _ h]
  · intro pre post h
    simp [parse_provider_model, splitFirstSlash_append _ _ h]
  · intro s h1 h2 h3
    simp [normalize_model_name, h1, h2, h3]

/-- C10 witness: concrete evaluations through
`c10_parse_provider_model` — an id with no slash is dropped, and
`"Anthropic/claude-opus-4.1"` parses to
`("anthropic", "claude-opus-4-1")`. -/
theorem c10_parse_provider_model_witness :
    parse_provider_model "noslash" = (none, none) ∧
    fetchParsedKey "noslash" = none ∧
    parse_provider_model "Anthropic/claude-opus-4.1" =
      (some "anthropic", some "claude-opus-4-1") := by
  have h1 := c10_parse_provider_model.1 "noslash" (by decide)
  have h2 := c10_parse_provider_model.2.1 "Anthropic".data
    "claude-opus-4.1".data (by decide)
  refine ⟨h1.1, h1.2, ?_⟩
  have he : "Anthropic/claude-opus-4.1" =
      String.mk ("Anthropic".data ++ '/' :: "claude-opus-4.1".data) := by
    decide
  rw [he, h2]
  decide

/-- C8: `should_sync` is read-only (it returns a boolean and no
state); it returns true when no `SyncMetadata` row exists for the
category, and otherwise true exactly when `now − last_sync_at`
reaches `max_age_hours` (the age in hours, compared exactly). -/
theorem c8_should_sync (rows : List SyncRow) (t : String)
    (now maxAge : Int) :
    (latestSyncRow rows t = none → should_sync rows t now maxAge = true) ∧
    (∀ r, latestSyncRow rows t = some r →
      should_sync rows t now maxAge =
        decide (maxAge * 3600 ≤ now - r.last_sync_at)) := by
  constructor
  · intro h
    simp [should_sync, h]
  · intro r h
    simp only [should_sync, h]
    rw [decide_eq_decide]
    rw [ge_iff_le, le_div_iff₀ (by norm_num : (0 : ℚ) < 3600)]
    exact_mod_cast Iff.rfl

/-- C8 witness: with the default 24-hour threshold, no prior row
yields true, a 10-hour-old sync yields false, a 30-hour-old sync
yields true. -/
theorem c8_should_sync_witness :
    should_sync [] "openrouter_models" 36000 24 = true ∧
    should_sync [sampleSyncRow] "openrouter_models" 36000 24 = false ∧
    should_sync [sampleSyncRow] "openrouter_models" 108000 24 = true := by
  refine ⟨(c8_should_sync [] "openrouter_models" 36000 24).1 (by decide),
    ?_, ?_⟩
  · have h := (c8_should_sync [sampleSyncRow]
      "openrouter_models" 36000 24).2 sampleSyncRow (by decide)
    rw [h]
    decide
  · have h := (c8_should_sync [sampleSyncRow]
      "openrouter_models" 108000 24).2 sampleSyncRow (by decide)
    rw [h]
    decide

/-- C2 counterexample: with a ZDR entry present whose `prompt_cost`
is the default `"0"`, the insert path stores `"0"` — it does NOT fall
back to the endpoint's own `prompt` value `"5"` as the claim says. -/
theorem c2_zdr_no_fallback_counterexample :
    (mkEndpointPricingInsert (some sampleZdrDefault) sampleEndpoint 1 1).prompt_cost = "0" ∧
    dictGetD sampleEndpoint.pricing "prompt" "0" = "5" ∧
    (mkEndpointPricingInsert (some sampleZdrDefault) sampleEndpoint 1 1).prompt_cost ≠ "5" := by
  refine ⟨rfl, rfl, ?_⟩
  decide

/-- C2 (amended): when a ZDR entry exists the pricing row created for
a new endpoint takes all ten fields from the ZDR record
unconditionally (fields absent from the raw ZDR payload are already
the default `"0"`), ignoring the endpoint's own pricing block; only
when no ZDR entry exists are the endpoint's own `prompt`,
`completion`, `request` and `image` keys read, defaulting to `"0"`,
with the remaining six fields the literal `"0"`. -/
theorem c2_insert_pricing_resolution (z : ZDREndpoint) (ep : Endpoint)
    (i j : Nat) :
    mkEndpointPricingInsert (some z) ep i j =
      { id := j, endpoint_id := i, prompt_cost := z.pricing.prompt_cost, completion_cost := z.pricing.completion_cost, request_cost := z.pricing.request_cost, image_cost := z.pricing.image_cost, image_output_cost := z.pricing.image_output_cost, audio_cost := z.pricing.audio_cost, input_audio_cache_cost := z.pricing.input_audio_cache_cost, input_cache_read_cost := z.pricing.input_cache_read_cost, input_cache_write_cost := z.pricing.input_cache_write_cost, discount := z.pricing.discount } ∧
    mkEndpointPricingInsert none ep i j =
      { id := j, endpoint_id := i, prompt_cost := dictGetD ep.pricing "prompt" "0", completion_cost := dictGetD ep.pricing "completion" "0", request_cost := dictGetD ep.pricing "request" "0", image_cost := dictGetD ep.pricing "image" "0", image_output_cost := "0", audio_cost := "0", input_audio_cache_cost := "0", input_cache_read_cost := "0", input_cache_write_cost := "0", discount := "0" } :=
  ⟨rfl, rfl⟩

/-- C3 counterexample: with no ZDR entry, the insert path stores
`"5"` for `prompt_cost` (read from the `"prompt"` key), while the
update path has NO incoming value for that field — it reads the
`"prompt_cost"` key, which is absent — so the two paths do not
resolve pricing identically. -/
theorem c3_paths_differ_counterexample :
    insertStoredField .prompt none sampleEndpoint = "5" ∧
    updateIncomingField .prompt none sampleEndpoint = none ∧
    updateIncomingField .prompt none sampleEndpoint ≠
      some (insertStoredField .prompt none sampleEndpoint) := by
  refine ⟨rfl, rfl, ?_⟩
  decide

/-- C3 (amended): the two paths agree only in the ZDR case — for
every field whose ZDR value is truthy, the value the update path
treats as incoming is exactly the value the insert path stores.  In
the no-ZDR case they differ: the insert path reads the keys
`prompt`/`completion`/`request`/`image` with default `"0"`, while the
update path reads `prompt_cost`/`completion_cost`/`request_cost`/
`image_cost` with no default and never touches the other six
fields. -/
theorem c3_zdr_case_agreement (f : EPField) (z : ZDREndpoint)
    (ep : Endpoint) (h : zdrField f z.pricing ≠ "") :
    updateIncomingField f (some z) ep =
      some (insertStoredField f (some z) ep) := by
  cases f <;>
    simp [updateIncomingField, insertStoredField, rowField, zdrField,
      mkEndpointPricingInsert, h] <;>
    simpa [zdrField] using h

/-- C3 witness: the agreement at a concrete ZDR entry. -/
theorem c3_zdr_case_agreement_witness :
    zdrField .prompt { prompt_cost := "0.5" : ZDREndpointPricing } ≠ "" ∧
    updateIncomingField .prompt
      (some { provider_name := "p", model_name := "m", tag := "t", pricing := { prompt_cost := "0.5" } }) sampleEndpoint =
      some (insertStoredField .prompt
        (some { provider_name := "p", model_name := "m", tag := "t", pricing := { prompt_cost := "0.5" } }) sampleEndpoint) :=
  ⟨by decide,
   c3_zdr_case_agreement .prompt
     { provider_name := "p", model_name := "m", tag := "t", pricing := { prompt_cost := "0.5" } }
     sampleEndpoint (by decide)⟩

/-- C4: the code's behavior at the failing input.  `main_async`
records sync metadata through `session.merge` on instances whose
primary key is unset, so each run INSERTs fresh rows; the first run
succeeds and creates one row per category, and the second completed
sync run violates `UniqueConstraint("sync_type")` — the commit raises
instead of replacing the rows in place. -/
theorem c4_sync_metadata_second_run_fails :
    recordSyncRun [] 1 100 5 3 =
      .ok ([{ id := 1, sync_type := "openrouter_models", last_sync_at := 100, models_count := some 5 }, { id := 2, sync_type := "zdr_endpoints", last_sync_at := 100, zdr_endpoints_count := some 3 }], 3) ∧
    recordSyncRun [{ id := 1, sync_type := "openrouter_models", last_sync_at := 100, models_count := some 5 }, { id := 2, sync_type := "zdr_endpoints", last_sync_at := 100, zdr_endpoints_count := some 3 }] 3 200 6 4 = .error () :=
  ⟨rfl, rfl⟩

/-- C1: the code's behavior at the failing input.  For a batch of
three fresh candidates where only the second raises during subgraph
construction, `session.rollback()` discards the whole uncommitted
transaction — including the first candidate's already-flushed rows —
so only the third candidate's rows are committed, yet the function
still returns inserted count 2 (it had already counted the first
candidate before its rows were thrown away). -/
theorem c1_rollback_discards_prior_rows :
    c1Run.2.1 = 2 ∧ c1Run.2.2 = 0 ∧
    keyExists c1Run.1.db "a" "m1" = false ∧
    keyExists c1Run.1.db "a" "m2" = false ∧
    keyExists c1Run.1.db "a" "m3" = true :=
  ⟨rfl, rfl, rfl, rfl, rfl⟩

/-- C6 counterexample: with a batch that contains the same fresh key
twice, the second run over the byte-identical input does NOT return
zero inserts and all-skipped — both runs return `(1, 0)` (the
duplicate's flush failure rolls the batch's rows back, so the key is
still absent from the database when the second run starts). -/
theorem c6_duplicate_batch_counterexample :
    dupRun2.2.1 = 1 ∧ dupRun2.2.2 = 0 ∧
    ¬(dupRun2.2.1 = 0 ∧ dupRun2.2.2 = 2) := by
  refine ⟨rfl, rfl, ?_⟩
  decide

/-- C7 counterexample: a batch with two candidates of the same fresh
`(author, model_name)` key does not leave exactly one row for that
key, and the second duplicate is not counted as skipped: the
duplicate's unique-constraint failure rolls back the first
candidate's uncommitted rows too, so ZERO rows for the key survive,
and the returned pair is `(1, 0)`. -/
theorem c7_duplicate_in_batch_counterexample :
    dupRun1.1.db.llm_models.length = 0 ∧
    dupRun1.2.1 = 1 ∧ dupRun1.2.2 = 0 := ⟨rfl, rfl, rfl⟩

/-- C5 counterexample: a brand-new candidate inserted by this very
run is visited by NO field-group update function during the run — the
update pass runs first, its counters all stay 0 and its model lookup
fails throughout (the pre-insert state has no row for the key), while
the insert pass then stores the model. -/
theorem c5_new_model_not_visited_counterexample :
    c5Run.updatedLlm = 0 ∧ c5Run.updatedPricing = 0 ∧
    c5Run.updatedTopProvider = 0 ∧ c5Run.updatedEndpoints = 0 ∧
    c5Run.updatedEndpointPricing = 0 ∧
    lookupModelId c5Run.dbBeforeInsert "a" "new" = none ∧
    c5Run.inserted = 1 ∧
    (lookupModelId c5Run.dbFinal "a" "new").isSome = true :=
  ⟨rfl, rfl, rfl, rfl, rfl, rfl, rfl, rfl⟩

/-- C9 counterexample: `update_existing_top_provider` counts a model
whose incoming values all equal its stored values — the run returns
the store UNCHANGED yet reports one update (the code sets
`updated = True` unconditionally after refreshing `is_moderated`). -/
theorem c9_counts_unchanged_counterexample :
    update_existing_top_provider c9Db [mkCandidate "a" "m"] = (c9Db, 1) :=
  rfl

theorem llmUpdateStep_snd (now : Int) (db : Tables) (m : ORModel) :
    (llmUpdateStep now db m).2 = llmWouldFill db m := by
  unfold llmUpdateStep llmWouldFill
  cases h : db.llm_models.find? (llmRowMatch m) with
  | none => rfl
  | some r =>
      by_cases h1 : (m.name != "" && optStrFalsy r.display_name) = true <;>
        by_cases h2 : (m.description != "" && optStrFalsy r.description) = true <;>
          by_cases h3 : (m.context_length != 0 && optIntFalsy r.context_length) = true <;>
            simp [h1, h2, h3]

theorem topProviderUpdateStep_snd (db : Tables) (m : ORModel) :
    (topProviderUpdateStep db m).2 = topProviderMatched db m := by
  unfold topProviderUpdateStep topProviderMatched
  split
  · rfl
  · split <;> simp_all

theorem endpointUpdateStep_snd (zdr : ZdrLookup) (idv : Nat)
    (acc : Tables × Nat) (ep : Endpoint) :
    (endpointUpdateStep zdr idv acc ep).2 =
      acc.2 + (if (acc.1.model_endpoints.find? (endpointRowMatch idv ep)).isSome
        then 1 else 0) := by
  obtain ⟨db, c⟩ := acc
  unfold endpointUpdateStep
  dsimp only
  split
  · rename_i heq
    simp [heq]
  · rename_i r heq
    simp [heq]

/-- C9 (amended): `update_existing_llm_models` counts a candidate
exactly when one of its fill-if-empty guards fires (a stored field
actually changes), but `update_existing_top_provider` and
`update_existing_endpoints` count every candidate whose rows are
matched, regardless of whether any stored value changes — they
unconditionally refresh `is_moderated` (resp. `status`,
`supports_implicit_caching`, `is_zdr`) and set `updated = True`. -/
theorem c9_counter_semantics (db : Tables) (m : ORModel) (ep : Endpoint)
    (zdr : ZdrLookup) (now : Int) :
    (update_existing_llm_models db [m] now).2 =
      (if llmWouldFill db m then 1 else 0) ∧
    (update_existing_top_provider db [m]).2 =
      (if topProviderMatched db m then 1 else 0) ∧
    (update_existing_endpoints db [{ m with providers := [ep] }] zdr).2 =
      (if endpointMatched db m ep then 1 else 0) := by
  refine ⟨?_, ?_, ?_⟩
  · simp [update_existing_llm_models, llmUpdateStep_snd]
  · simp [update_existing_top_provider, topProviderUpdateStep_snd]
  · simp only [update_existing_endpoints, List.foldl_cons, List.foldl_nil]
    unfold endpointMatched
    rw [show llmRowMatch { m with providers := [ep] } = llmRowMatch m from rfl]
    split
    · rfl
    · rw [endpointUpdateStep_snd]
      simp

theorem foldl_preserve {α β : Type _} (P : α → Prop) (f : α → β → α)
    (l : List β) (a : α) (h : P a) (hf : ∀ x b, P x → P (f x b)) :
    P (l.foldl f a) := by
  induction l generalizing a with
  | nil => exact h
  | cons b bs ih => exact ih _ (hf _ _ h)

theorem pricingUpdateStep_fst_llm (db : Tables) (m : ORModel) :
    (pricingUpdateStep db m).1.llm_models = db.llm_models := by
  unfold pricingUpdateStep
  repeat' split
  all_goals rfl

theorem topProviderUpdateStep_fst_llm (db : Tables) (m : ORModel) :
    (topProviderUpdateStep db m).1.llm_models = db.llm_models := by
  unfold topProviderUpdateStep
  repeat' split
  all_goals rfl

theorem endpointUpdateStep_fst_llm (zdr : ZdrLookup) (idv : Nat)
    (acc : Tables × Nat) (ep : Endpoint) :
    (endpointUpdateStep zdr idv acc ep).1.llm_models = acc.1.llm_models := by
  obtain ⟨db, c⟩ := acc
  unfold endpointUpdateStep
  dsimp only
  repeat' split
  all_goals rfl

theorem endpointPricingStep_fst_llm (zdr : ZdrLookup) (idv : Nat)
    (acc : Tables × Nat) (ep : Endpoint) :
    (endpointPricingStep zdr idv acc ep).1.llm_models = acc.1.llm_models := by
  obtain ⟨db, c⟩ := acc
  unfold endpointPricingStep
  dsimp only
  repeat' split
  all_goals rfl

theorem update_existing_model_pricing_llm (db : Tables)
    (models : List ORModel) :
    (update_existing_model_pricing db models).1.llm_models =
      db.llm_models := by
  unfold update_existing_model_pricing
  refine foldl_preserve
    (fun acc : Tables × Nat => acc.1.llm_models = db.llm_models) _ _ _ rfl ?_
  intro x m hx
  dsimp only
  rw [pricingUpdateStep_fst_llm]
  exact hx

theorem update_existing_top_provider_llm (db : Tables)
    (models : List ORModel) :
    (update_existing_top_provider db models).1.llm_models =
      db.llm_models := by
  unfold update_existing_top_provider
  refine foldl_preserve
    (fun acc : Tables × Nat => acc.1.llm_models = db.llm_models) _ _ _ rfl ?_
  intro x m hx
  dsimp only
  rw [topProviderUpdateStep_fst_llm]
  exact hx

theorem update_existing_endpoints_llm (db : Tables) (models : List ORModel)
    (zdr : ZdrLookup) :
    (update_existing_endpoints db models zdr).1.llm_models =
      db.llm_models := by
  unfold update_existing_endpoints
  refine foldl_preserve
    (fun acc : Tables × Nat => acc.1.llm_models = db.llm_models) _ _ _ rfl ?_
  intro x m hx
  cases hfind : x.1.llm_models.find? (llmRowMatch m) with
  | none => simpa [hfind] using hx
  | some mr =>
      simp only [hfind]
      refine foldl_preserve
        (fun acc : Tables × Nat => acc.1.llm_models = db.llm_models) _ _ _ hx
        ?_
      intro y ep hy
      rw [endpointUpdateStep_fst_llm]
      exact hy

theorem update_existing_endpoint_pricing_llm (db : Tables)
    (models : List ORModel) (zdr : ZdrLookup) :
    (update_existing_endpoint_pricing db models zdr).1.llm_models =
      db.llm_models := by
  unfold update_existing_endpoint_pricing
  refine foldl_preserve
    (fun acc : Tables × Nat => acc.1.llm_models = db.llm_models) _ _ _ rfl ?_
  intro x m hx
  cases hfind : x.1.llm_models.find? (llmRowMatch m) with
  | none => simpa [hfind] using hx
  | some mr =>
      simp only [hfind]
      refine foldl_preserve
        (fun acc : Tables × Nat => acc.1.llm_models = db.llm_models) _ _ _ hx
        ?_
      intro y ep hy
      rw [endpointPricingStep_fst_llm]
      exact hy

theorem replaceFirst_map_of_find? {α β : Type _} (p : α → Bool) (g : α → β) :
    ∀ (l : List α) (r0 x : α), l.find? p = some r0 → g x = g r0 →
      (replaceFirst p x l).map g = l.map g := by
  intro l
  induction l with
  | nil => intro r0 x h hg; simp at h
  | cons a as ih =>
      intro r0 x h hg
      by_cases hp : p a = true
      · rw [List.find?_cons_of_pos _ hp] at h
        injection h with h'
        subst h'
        simp [replaceFirst, hp, hg]
      · rw [List.find?_cons_of_neg _ (by simpa using hp)] at h
        simp [replaceFirst, hp, ih _ _ h hg]

theorem llmUpdateStep_fst_triples (now : Int) (db : Tables) (m : ORModel) :
    (llmUpdateStep now db m).1.llm_models.map llmTriple =
      db.llm_models.map llmTriple := by
  unfold llmUpdateStep
  cases h : db.llm_models.find? (llmRowMatch m) with
  | none => rfl
  | some r =>
      by_cases h1 : (m.name != "" && optStrFalsy r.display_name) = true <;>
        by_cases h2 : (m.description != "" && optStrFalsy r.description) = true <;>
          by_cases h3 : (m.context_length != 0 && optIntFalsy r.context_length) = true <;>
            simp [h1, h2, h3] <;>
      exact replaceFirst_map_of_find? _ llmTriple _ _ _ h (by rfl)

theorem update_existing_llm_models_triples (db : Tables)
    (models : List ORModel) (now : Int) :
    (update_existing_llm_models db models now).1.llm_models.map llmTriple =
      db.llm_models.map llmTriple := by
  unfold update_existing_llm_models
  refine foldl_preserve
    (fun acc : Tables × Nat =>
      acc.1.llm_models.map llmTriple = db.llm_models.map llmTriple)
    _ _ _ rfl ?_
  intro x m hx
  dsimp only
  rw [llmUpdateStep_fst_triples]
  exact hx

theorem find?_key_map_id :
    ∀ (l₁ l₂ : List LLMModelRow),
      l₁.map llmTriple = l₂.map llmTriple → ∀ (a n : String),
      ((l₁.find? (fun r => r.author == a && r.model_name == n)).map
        (fun r => r.id)) =
      ((l₂.find? (fun r => r.author == a && r.model_name == n)).map
        (fun r => r.id)) := by
  intro l₁
  induction l₁ with
  | nil =>
      intro l₂ h a n
      cases l₂ with
      | nil => rfl
      | cons y ys => simp at h
  | cons x xs ih =>
      intro l₂ h a n
      cases l₂ with
      | nil => simp at h
      | cons y ys =>
          simp only [List.map_cons, List.cons.injEq] at h
          obtain ⟨h1, h2⟩ := h
          have hid : x.id = y.id := congrArg Prod.fst h1
          have ha : x.author = y.author :=
            congrArg (fun t => t.2.1) h1
          have hn : x.model_name = y.model_name :=
            congrArg (fun t => t.2.2) h1
          rw [List.find?_cons, List.find?_cons, ← ha, ← hn]
          cases hp : (x.author == a && x.model_name == n) with
          | true => simp [hid]
          | false => exact ih ys h2 a n

theorem lookupModelId_congr (t u : Tables)
    (h : t.llm_models.map llmTriple = u.llm_models.map llmTriple)
    (a n : String) : lookupModelId t a n = lookupModelId u a n := by
  unfold lookupModelId
  exact find?_key_map_id _ _ h a n

/-- C5 (amended): the update path runs BEFORE the insert path, on the
pre-insert state; none of the update functions adds or re-keys model
rows, so a candidate's model lookup resolves the same way at every
update stage as at the start of the run — in particular a candidate
absent at the start of the run is matched by no update function
during that run — and `bulk_insert_models` then runs on the state the
updates left behind. -/
theorem c5_updates_precede_insert (db : Tables) (nextId : Nat) (now : Int)
    (models : List ORModel) (zdr : ZdrLookup) (a n : String) :
    let u1 := update_existing_llm_models db models now
    let u2 := update_existing_model_pricing u1.1 models
    let u3 := update_existing_top_provider u2.1 models
    let u4 := update_existing_endpoints u3.1 models zdr
    let u5 := update_existing_endpoint_pricing u4.1 models zdr
    lookupModelId u1.1 a n = lookupModelId db a n ∧
    lookupModelId u2.1 a n = lookupModelId db a n ∧
    lookupModelId u3.1 a n = lookupModelId db a n ∧
    lookupModelId u4.1 a n = lookupModelId db a n ∧
    lookupModelId u5.1 a n = lookupModelId db a n ∧
    (main_db_phase db nextId now models zdr).dbBeforeInsert = u5.1 ∧
    (main_db_phase db nextId now models zdr).dbFinal =
      (bulk_insert_models { db := u5.1, pending := {}, nextId := nextId }
        models zdr noFail).1.db := by
  intro u1 u2 u3 u4 u5
  have t1 : u1.1.llm_models.map llmTriple = db.llm_models.map llmTriple :=
    update_existing_llm_models_triples db models now
  have t2 : u2.1.llm_models = u1.1.llm_models :=
    update_existing_model_pricing_llm u1.1 models
  have t3 : u3.1.llm_models = u2.1.llm_models :=
    update_existing_top_provider_llm u2.1 models
  have t4 : u4.1.llm_models = u3.1.llm_models :=
    update_existing_endpoints_llm u3.1 models zdr
  have t5 : u5.1.llm_models = u4.1.llm_models :=
    update_existing_endpoint_pricing_llm u4.1 models zdr
  have l1 : lookupModelId u1.1 a n = lookupModelId db a n :=
    lookupModelId_congr _ _ t1 a n
  have l2 : lookupModelId u2.1 a n = lookupModelId db a n := by
    rw [lookupModelId_congr u2.1 u1.1 (by rw [t2]) a n]; exact l1
  have l3 : lookupModelId u3.1 a n = lookupModelId db a n := by
    rw [lookupModelId_congr u3.1 u2.1 (by rw [t3]) a n]; exact l2
  have l4 : lookupModelId u4.1 a n = lookupModelId db a n := by
    rw [lookupModelId_congr u4.1 u3.1 (by rw [t4]) a n]; exact l3
  have l5 : lookupModelId u5.1 a n = lookupModelId db a n := by
    rw [lookupModelId_congr u5.1 u4.1 (by rw [t5]) a n]; exact l4
  exact ⟨l1, l2, l3, l4, l5, rfl, rfl⟩

theorem llmKeys_append (t u : Tables) :
    llmKeys (t.append u) = llmKeys t ++ llmKeys u := by
  simp [llmKeys, Tables.append]

theorem keyExists_iff (t : Tables) (a n : String) :
    keyExists t a n = true ↔ (a, n) ∈ llmKeys t := by
  simp only [keyExists, llmKeys, List.any_eq_true, Bool.and_eq_true,
    beq_iff_eq, List.mem_map, Prod.mk.injEq]

theorem keyExists_eq_decide (t : Tables) (a n : String) :
    keyExists t a n = decide ((a, n) ∈ llmKeys t) := by
  by_cases h : (a, n) ∈ llmKeys t
  · rw [decide_eq_true h]
    exact (keyExists_iff t a n).mpr h
  · rw [decide_eq_false h, Bool.eq_false_iff]
    intro hc
    exact h ((keyExists_iff t a n).mp hc)

theorem endpointFold_props (zdr : ZdrLookup) (idv : Nat) (l : List Endpoint)
    (s : Session) :
    (l.foldl (insertEndpointStep zdr idv) s).db = s.db ∧
    (l.foldl (insertEndpointStep zdr idv) s).pending.llm_models =
      s.pending.llm_models := by
  refine foldl_preserve
    (fun x : Session => x.db = s.db ∧
      x.pending.llm_models = s.pending.llm_models) _ _ _ ⟨rfl, rfl⟩ ?_
  intro x ep hx
  unfold insertEndpointStep
  split
  · exact hx
  · exact hx

theorem modalityFold_props (archId : Nat) (ty : String) (l : List String)
    (s : Session) :
    (l.foldl (addModalityRow archId ty) s).db = s.db ∧
    (l.foldl (addModalityRow archId ty) s).pending.llm_models =
      s.pending.llm_models := by
  refine foldl_preserve
    (fun x : Session => x.db = s.db ∧
      x.pending.llm_models = s.pending.llm_models) _ _ _ ⟨rfl, rfl⟩ ?_
  intro x v hx
  exact hx

theorem paramFold_props (idv : Nat) (l : List String) (s : Session) :
    (l.foldl (addSupportedParamRow idv) s).db = s.db ∧
    (l.foldl (addSupportedParamRow idv) s).pending.llm_models =
      s.pending.llm_models := by
  refine foldl_preserve
    (fun x : Session => x.db = s.db ∧
      x.pending.llm_models = s.pending.llm_models) _ _ _ ⟨rfl, rfl⟩ ?_
  intro x v hx
  exact hx

theorem insertModelSubgraph_error_of_keyExists (zdr : ZdrLookup)
    (failing : ORModel → Bool) (s : Session) (m : ORModel)
    (hk : keyExists s.visible m.author m.model_name = true) :
    insertModelSubgraph zdr failing s m = .error () := by
  unfold insertModelSubgraph flushNewLLMModel
  simp [hk]

theorem insertModelSubgraph_ok_of (zdr : ZdrLookup)
    (failing : ORModel → Bool) (s : Session) (m : ORModel)
    (hk : keyExists s.visible m.author m.model_name = false)
    (hf : failing m = false) :
    ∃ t, insertModelSubgraph zdr failing s m = .ok t := by
  unfold insertModelSubgraph flushNewLLMModel
  simp [hk, hf]

theorem insertModelSubgraph_ok_cases (zdr : ZdrLookup)
    (failing : ORModel → Bool) (s : Session) (m : ORModel) (t : Session)
    (h : insertModelSubgraph zdr failing s m = .ok t) :
    keyExists s.visible m.author m.model_name = false ∧
    t.db = s.db ∧
    t.pending.llm_models =
      s.pending.llm_models ++ [coreRow m s.nextId] := by
  unfold insertModelSubgraph flushNewLLMModel at h
  by_cases hk : keyExists s.visible m.author m.model_name = true
  · simp [hk] at h
  · rw [Bool.not_eq_true] at hk
    refine ⟨hk, ?_⟩
    by_cases hf : failing m = true
    · simp [hk, hf] at h
    · rw [Bool.not_eq_true] at hf
      simp only [hk, hf, Bool.false_eq_true, if_false, Except.ok.injEq]
        at h
      subst h
      constructor
      · rw [(endpointFold_props _ _ _ _).1]
        repeat' split
        all_goals
          simp only [(paramFold_props _ _ _).1,
            (modalityFold_props _ _ _ _).1]
      · rw [(endpointFold_props _ _ _ _).2]
        repeat' split
        all_goals
          simp only [(paramFold_props _ _ _).2,
            (modalityFold_props _ _ _ _).2]

theorem llmKeys_visible_extend (t s : Session) (row : LLMModelRow)
    (hdb : t.db = s.db)
    (hllm : t.pending.llm_models = s.pending.llm_models ++ [row]) :
    llmKeys t.visible =
      llmKeys s.visible ++ [(row.author, row.model_name)] := by
  simp [Session.visible, llmKeys, Tables.append, hdb, hllm]

theorem bulk_fold_ok (zdr : ZdrLookup) :
    ∀ (l : List ORModel) (s : Session) (c : Nat),
      (l.map modelKey).Nodup →
      (∀ m ∈ l, modelKey m ∉ llmKeys s.visible) →
      (List.foldl (bulkInsertStep zdr noFail) (s, c) l).1.db = s.db ∧
      llmKeys (List.foldl (bulkInsertStep zdr noFail) (s, c) l).1.pending =
        llmKeys s.pending ++ l.map modelKey ∧
      (List.foldl (bulkInsertStep zdr noFail) (s, c) l).2 = c + l.length := by
  intro l
  induction l with
  | nil => intro s c _ _; exact ⟨rfl, by simp, rfl⟩
  | cons m l ih =>
      intro s c hnd hnotin
      have hkb : keyExists s.visible m.author m.model_name = false := by
        rw [keyExists_eq_decide]
        exact decide_eq_false (hnotin m (List.mem_cons_self m l))
      obtain ⟨t, hok⟩ := insertModelSubgraph_ok_of zdr noFail s m hkb rfl
      obtain ⟨-, hdb, hllm⟩ :=
        insertModelSubgraph_ok_cases zdr noFail s m t hok
      have hstep : bulkInsertStep zdr noFail (s, c) m = (t, c + 1) := by
        simp [bulkInsertStep, hok]
      have hkeysvis : llmKeys t.visible =
          llmKeys s.visible ++ [modelKey m] :=
        llmKeys_visible_extend t s (coreRow m s.nextId) hdb hllm
      have hnd' : (l.map modelKey).Nodup := (List.nodup_cons.mp (by
        simpa using hnd)).2
      have hnotin' : ∀ m' ∈ l, modelKey m' ∉ llmKeys t.visible := by
        intro m' hm' hmem
        rw [hkeysvis] at hmem
        rcases List.mem_append.mp hmem with hmem | hmem
        · exact hnotin m' (List.mem_cons_of_mem m hm') hmem
        · have heqk : modelKey m' = modelKey m := by simpa using hmem
          exact (List.nodup_cons.mp (by simpa using hnd)).1
            (heqk ▸ List.mem_map_of_mem modelKey hm')
      obtain ⟨ih1, ih2, ih3⟩ := ih t (c + 1) hnd' hnotin'
      rw [List.foldl_cons, hstep]
      refine ⟨by rw [ih1, hdb], ?_, by rw [ih3, List.length_cons]; omega⟩
      rw [ih2]
      have hpend : llmKeys t.pending =
          llmKeys s.pending ++ [modelKey m] := by
        simp [llmKeys, hllm, coreRow, modelKey]
      rw [hpend, List.map_cons, List.append_assoc]
      rfl

theorem bulk_insert_models_all_existing (s : Session)
    (models : List ORModel) (zdr : ZdrLookup) (failing : ORModel → Bool)
    (hall : ∀ m ∈ models, modelKey m ∈ llmKeys s.visible) :
    bulk_insert_models s models zdr failing = (s, 0, models.length) := by
  unfold bulk_insert_models
  have hfilter : models.filter
      (fun m => !(decide (modelKey m ∈ get_existing_models_from_db s))) =
        [] := by
    rw [List.filter_eq_nil_iff]
    intro m hm
    simp [get_existing_models_from_db, hall m hm]
  simp [hfilter]

theorem llmKeys_visible_split (x : Session) :
    llmKeys x.visible = llmKeys x.db ++ llmKeys x.pending := by
  show llmKeys (Tables.append _ _) = _
  rw [llmKeys_append]

theorem llmKeys_commit_visible (x : Session) :
    llmKeys x.commit.visible = llmKeys x.db ++ llmKeys x.pending := by
  show llmKeys (Tables.append (Tables.append x.db x.pending) {}) = _
  rw [llmKeys_append, llmKeys_append]
  have hnil : llmKeys ({} : Tables) = [] := rfl
  rw [hnil, List.append_nil]

theorem llmKeys_rollback_visible (x : Session) :
    llmKeys x.rollback.visible = llmKeys x.db := by
  show llmKeys (Tables.append x.db {}) = _
  rw [llmKeys_append]
  have hnil : llmKeys ({} : Tables) = [] := rfl
  rw [hnil, List.append_nil]

theorem bulk_insert_keys_superset (s : Session) (models : List ORModel)
    (zdr : ZdrLookup) (hnd : (models.map modelKey).Nodup) :
    ∀ m ∈ models,
      modelKey m ∈
        llmKeys (bulk_insert_models s models zdr noFail).1.visible := by
  intro m hm
  have hndf : ((models.filter (fun m =>
      !(decide (modelKey m ∈ get_existing_models_from_db s)))).map
        modelKey).Nodup :=
    List.Nodup.sublist
      (List.Sublist.map modelKey (List.filter_sublist models)) hnd
  unfold bulk_insert_models
  by_cases hemp : (models.filter (fun m =>
      !(decide (modelKey m ∈ get_existing_models_from_db s)))).isEmpty =
        true
  · simp only [hemp, if_true]
    have hnil := List.isEmpty_iff.mp hemp
    have hall := List.filter_eq_nil_iff.mp hnil m hm
    simp only [Bool.not_eq_true', decide_eq_false_iff_not, not_not] at hall
    exact hall
  · simp only [hemp, Bool.false_eq_true, if_false]
    have hnotin : ∀ m' ∈ (models.filter (fun m =>
        !(decide (modelKey m ∈ get_existing_models_from_db s)))),
        modelKey m' ∉ llmKeys s.visible := by
      intro m' hm' hmem
      have hp := (List.mem_filter.mp hm').2
      simp only [Bool.not_eq_true', decide_eq_false_iff_not] at hp
      exact hp hmem
    obtain ⟨h1, h2, h3⟩ := bulk_fold_ok zdr _ s 0 hndf hnotin
    have hvis : llmKeys (((models.filter (fun m =>
        !(decide (modelKey m ∈ get_existing_models_from_db s)))).foldl
          (bulkInsertStep zdr noFail) (s, 0)).1.commit).visible =
        llmKeys s.db ++ (llmKeys s.pending ++ (models.filter (fun m =>
          !(decide (modelKey m ∈ get_existing_models_from_db s)))).map
            modelKey) := by
      rw [llmKeys_commit_visible, h1, h2]
    rw [hvis]
    by_cases hmem0 : modelKey m ∈ get_existing_models_from_db s
    · have : modelKey m ∈ llmKeys s.db ++ llmKeys s.pending := by
        have hv := llmKeys_visible_split s
        rw [← hv]
        exact hmem0
      rcases List.mem_append.mp this with hmem | hmem
      · exact List.mem_append.mpr (Or.inl hmem)
      · exact List.mem_append.mpr (Or.inr (List.mem_append.mpr
          (Or.inl hmem)))
    · have hmf : m ∈ models.filter (fun m =>
          !(decide (modelKey m ∈ get_existing_models_from_db s))) :=
        List.mem_filter.mpr ⟨hm, by simp [hmem0]⟩
      exact List.mem_append.mpr (Or.inr (List.mem_append.mpr
        (Or.inr (List.mem_map_of_mem modelKey hmf))))

/-- C6 (amended): provided the candidate list's keys are pairwise
distinct and no subgraph exception occurs, running
`bulk_insert_models` a second time with the identical candidate list
against the state left by the first run returns the state unchanged
with inserted count 0 and skipped count equal to the number of
candidates — every candidate's key is found in the pre-loaded
existing-key set. -/
theorem c6_rerun_idempotent (db : Tables) (nextId : Nat)
    (models : List ORModel) (zdr : ZdrLookup)
    (hnd : (models.map modelKey).Nodup) :
    bulk_insert_models
      (bulk_insert_models { db := db, pending := {}, nextId := nextId }
        models zdr noFail).1 models zdr noFail =
      ((bulk_insert_models { db := db, pending := {}, nextId := nextId }
        models zdr noFail).1, 0, models.length) := by
  apply bulk_insert_models_all_existing
  intro m hm
  exact bulk_insert_keys_superset
    { db := db, pending := {}, nextId := nextId } models zdr hnd m hm

/-- C6 witness: the amended idempotence at a concrete two-candidate
batch with distinct keys against an empty store. -/
theorem c6_rerun_idempotent_witness :
    bulk_insert_models
      (bulk_insert_models { db := {}, pending := {}, nextId := 1 }
        [mkCandidate "a" "m1", mkCandidate "b" "m2"] [] noFail).1
      [mkCandidate "a" "m1", mkCandidate "b" "m2"] [] noFail =
      ((bulk_insert_models { db := {}, pending := {}, nextId := 1 }
        [mkCandidate "a" "m1", mkCandidate "b" "m2"] [] noFail).1, 0, 2) :=
  c6_rerun_idempotent {} 1 [mkCandidate "a" "m1", mkCandidate "b" "m2"] []
    (by decide)

/-- C7 (amended): the `(author, model_name)` uniqueness invariant is
preserved by any batch — if the keys visible to the session are
pairwise distinct before `bulk_insert_models`, the committed store's
keys are pairwise distinct afterwards, for every candidate list, ZDR
lookup and failure pattern (the in-batch duplicate is rejected at
flush, so a batch never creates two rows for one key — though the
rejection rolls back the whole open transaction and the duplicate is
counted neither inserted nor skipped). -/
theorem c7_key_uniqueness_preserved (s : Session) (models : List ORModel)
    (zdr : ZdrLookup) (failing : ORModel → Bool)
    (h : (llmKeys s.visible).Nodup) :
    (llmKeys (bulk_insert_models s models zdr failing).1.db).Nodup := by
  have hs := llmKeys_visible_split s
  unfold bulk_insert_models
  by_cases hemp : (models.filter (fun m =>
      !(decide (modelKey m ∈ get_existing_models_from_db s)))).isEmpty =
        true
  · simp only [hemp, if_true]
    exact List.Nodup.of_append_left (hs ▸ h)
  · simp only [hemp, Bool.false_eq_true, if_false]
    have hinv : (llmKeys ((models.filter (fun m =>
        !(decide (modelKey m ∈ get_existing_models_from_db s)))).foldl
          (bulkInsertStep zdr failing) (s, 0)).1.visible).Nodup := by
      refine foldl_preserve
        (fun x : Session × Nat => (llmKeys x.1.visible).Nodup) _ _ _ h ?_
      intro x m hx
      unfold bulkInsertStep
      cases hstep : insertModelSubgraph zdr failing x.1 m with
      | error e =>
          have hx' := llmKeys_visible_split x.1
          have hroll := llmKeys_rollback_visible x.1
          simpa [hroll] using List.Nodup.of_append_left (hx' ▸ hx)
      | ok t =>
          obtain ⟨hk, hdb, hllm⟩ :=
            insertModelSubgraph_ok_cases zdr failing x.1 m t hstep
          have hkeys : llmKeys t.visible =
              llmKeys x.1.visible ++ [modelKey m] :=
            llmKeys_visible_extend t x.1 (coreRow m x.1.nextId) hdb hllm
          have hnotmem : modelKey m ∉ llmKeys x.1.visible := by
            intro hc
            have hd : decide ((m.author, m.model_name) ∈
                llmKeys x.1.visible) = true := decide_eq_true hc
            rw [keyExists_eq_decide, hd] at hk
            simp at hk
          show (llmKeys t.visible).Nodup
          rw [hkeys, List.nodup_append]
          refine ⟨hx, List.nodup_singleton _, ?_⟩
          intro k hk1 hk2
          rw [List.mem_singleton] at hk2
          exact hnotmem (hk2 ▸ hk1)
    exact hinv

/-- C7 witness: the uniqueness invariant applied to the duplicate
batch `[A, A]` against an empty store. -/
theorem c7_key_uniqueness_preserved_witness :
    (llmKeys ({ db := {}, pending := {}, nextId := 1 } :
      Session).visible).Nodup ∧
    (llmKeys (bulk_insert_models { db := {}, pending := {}, nextId := 1 }
      [mkCandidate "a" "m", mkCandidate "a" "m"] [] noFail).1.db).Nodup :=
  ⟨by decide,
   c7_key_uniqueness_preserved { db := {}, pending := {}, nextId := 1 }
     [mkCandidate "a" "m", mkCandidate "a" "m"] [] noFail (by decide)⟩

end ModelRegistry